import Mathlib

/-!
Verification of the stationarity-testing core of `src/trading/time_models.py`.

The module under study wraps two hypothesis tests from an external statistical
library (`statsmodels.tsa.stattools.adfuller` and `kpss`) and a
differencing-order recommendation routine (`pmdarima.arima.ndiffs`).  The
wrappers are embedded here faithfully; the external library itself is treated
as an abstract oracle (`StatsLib`), since its code is not part of this
repository.  Numeric values produced by the library are modelled as rationals;
side effects (printing, plotting) are modelled as an explicit effect trace.
-/

/-- The `autolag` argument accepted by the library's augmented Dickey-Fuller
routine.  The source wrapper always passes the string "AIC". -/
inductive AutoLag
  | AIC
  | BIC
  | tstat
  | noAuto
deriving DecidableEq, Repr

/-- The `regression` argument of the library's KPSS routine, i.e. the
`h0_type` values the wrapper accepts: "c" (stationary around a constant) or
"ct" (stationary around a trend). -/
inductive Regression
  | c
  | ct
deriving DecidableEq, Repr

/-- The `nlags` argument of the library's KPSS routine.  The source wrapper
always passes the string "auto". -/
inductive NLags
  | auto
  | legacy
  | fixed (n : Nat)
deriving DecidableEq, Repr

/-- The error surfaced when a series is too short for the minimum lag
requirement of a test (the spec's `InsufficientDataError`). -/
inductive StatsError
  | insufficientData
deriving DecidableEq, Repr

/-- The tuple returned by the library's `adfuller` routine: test statistic,
p-value, number of lags used, number of observations used, and a dictionary
of critical values keyed by confidence-level label. -/
structure AdfOutput where
  statistic : ℚ
  pvalue : ℚ
  usedlag : Nat
  nobs : Nat
  critvalues : List (String × ℚ)
deriving DecidableEq, Repr

/-- The tuple returned by the library's `kpss` routine: test statistic,
p-value, number of lags, and a dictionary of critical values keyed by
confidence-level label. -/
structure KpssOutput where
  statistic : ℚ
  pvalue : ℚ
  lags : Nat
  critvalues : List (String × ℚ)
deriving DecidableEq, Repr

/-- Abstract interface of the external statistical library: the two
hypothesis-test routines the source wrappers call.  Each routine either
returns its result tuple or fails (insufficient data). -/
structure StatsLib where
  adfuller : List ℚ → AutoLag → Except StatsError AdfOutput
  kpss : List ℚ → Regression → NLags → Except StatsError KpssOutput

/-- Null-hypothesis classification of a test routine. -/
inductive NullHyp
  | unitRoot
  | stationaryAroundConstant
  | stationaryAroundTrend
deriving DecidableEq, Repr

/-- Modelled from the spec: the null hypothesis of the library's `adfuller`
routine (the augmented Dickey-Fuller test) is that the series has a unit
root, i.e. is non-stationary.  Also stated in the source docstring of
`adf_test` ("Null Hypothesis: time series is not stationary"). -/
def adfullerNullHypothesis : NullHyp := NullHyp.unitRoot

/-- Modelled from the spec: the null hypothesis of the library's `kpss`
routine as a function of its `regression` argument: the series is stationary
around a constant for "c" and around a trend for "ct".  Also stated in the
source docstring of `kpss_test`. -/
def kpssNullHypothesis : Regression → NullHyp
  | Regression.c => NullHyp.stationaryAroundConstant
  | Regression.ct => NullHyp.stationaryAroundTrend

/-- Side effects performed by the module's functions, abstracted to the
values they emit: the two printed test summaries (statistic and p-value,
rendered at two decimals by the source's format strings) and the two
autocorrelation plots (drawn from the series with the given lag count and
significance level). -/
inductive Effect
  | printADF (statistic pvalue : ℚ)
  | printKPSS (statistic pvalue : ℚ)
  | plotACF (series : List ℚ) (lags : Nat) (alpha : ℚ)
  | plotPACF (series : List ℚ) (lags : Nat) (alpha : ℚ)
deriving DecidableEq, Repr

/-- The figure returned by `test_autocorrelation`: two axes holding the ACF
and PACF plots of the series at the given lag count and significance level. -/
structure Figure where
  series : List ℚ
  lags : Nat
  alpha : ℚ
deriving DecidableEq, Repr

/-- A computation together with the trace of side effects it performed before
returning (or before the exception escaped). -/
def EffM (α : Type) : Type := List Effect × Except StatsError α

/-- Label lookup on a labelled value sequence (a pandas `Series` indexed by
strings): the value at the first occurrence of the label. -/
def seriesGet (rs : List (String × ℚ)) (lbl : String) : ℚ :=
  (Option.map Prod.snd (rs.find? (fun p => p.1 = lbl))).getD 0

/-- Embedding of `adf_test` (time_models.py lines 39-59): calls
`adfuller(x, autolag="AIC")` and repackages the tuple as a labelled series
with indices "Test Statistic", "p-value", "# of Lags Used",
"# of Observations Used" followed by one "Critical Value (k)" entry per
critical value.  The body performs no I/O; a library failure propagates. -/
def adf_test (lib : StatsLib) (x : List ℚ) : EffM (List (String × ℚ)) :=
  ([],
    match lib.adfuller x AutoLag.AIC with
    | Except.error e => Except.error e
    | Except.ok r =>
        Except.ok
          ([("Test Statistic", r.statistic), ("p-value", r.pvalue),
            ("# of Lags Used", (r.usedlag : ℚ)),
            ("# of Observations Used", (r.nobs : ℚ))] ++
            r.critvalues.map (fun kv => ("Critical Value (" ++ kv.1 ++ ")", kv.2))))

/-- Embedding of `kpss_test` (lines 62-86): calls
`kpss(x, regression=h0_type, nlags="auto")` and repackages the tuple as a
labelled series with indices "Test Statistic", "p-value", "# of Lags"
followed by one "Critical Value (k)" entry per critical value.  The body
performs no I/O; a library failure propagates. -/
def kpss_test (lib : StatsLib) (x : List ℚ) (h0_type : Regression) :
    EffM (List (String × ℚ)) :=
  ([],
    match lib.kpss x h0_type NLags.auto with
    | Except.error e => Except.error e
    | Except.ok r =>
        Except.ok
          ([("Test Statistic", r.statistic), ("p-value", r.pvalue),
            ("# of Lags", (r.lags : ℚ))] ++
            r.critvalues.map (fun kv => ("Critical Value (" ++ kv.1 ++ ")", kv.2))))

/-- The default value of the `h0_type` parameter of `kpss_test` (Python
default argument `h0_type="c"`, line 62). -/
def kpssDefaultH0 : Regression := Regression.c

/-- `kpss_test` invoked with its `h0_type` argument omitted: Python fills in
the declared default. -/
def kpss_test_default (lib : StatsLib) (x : List ℚ) : EffM (List (String × ℚ)) :=
  kpss_test lib x kpssDefaultH0

/-- Embedding of `test_autocorrelation` (lines 89-128): runs `adf_test` on
the series, then `kpss_test` with the given `h0_type`, prints one summary
line per test (statistic and p-value), then draws the ACF and PACF plots at
the given `n_lags` and `alpha` and returns the figure.  An exception from
either test escapes before anything is printed. -/
def test_autocorrelation (lib : StatsLib) (x : List ℚ) (n_lags : Nat)
    (alpha : ℚ) (h0_type : Regression) : EffM Figure :=
  match adf_test lib x with
  | (tA, Except.error e) => (tA, Except.error e)
  | (tA, Except.ok adf_results) =>
      match kpss_test lib x h0_type with
      | (tK, Except.error e) => (tA ++ tK, Except.error e)
      | (tK, Except.ok kpss_results) =>
          (tA ++ tK ++
            [Effect.printADF (seriesGet adf_results "Test Statistic")
              (seriesGet adf_results "p-value"),
             Effect.printKPSS (seriesGet kpss_results "Test Statistic")
              (seriesGet kpss_results "p-value"),
             Effect.plotACF x n_lags alpha,
             Effect.plotPACF x n_lags alpha],
            Except.ok { series := x, lags := n_lags, alpha := alpha })

/-- The default values of the `n_lags` and `alpha` parameters of
`test_autocorrelation` (Python defaults `n_lags=40, alpha=0.05`, line 89). -/
def taDefaultNLags : Nat := 40

/-- The default significance level of `test_autocorrelation`. -/
def taDefaultAlpha : ℚ := 1 / 20

/-- The two stationarity-test invocations of `testing_stationary`
(lines 205-206): `adf_test(df.price)` and `kpss_test(df.price)` — the latter
with the `h0_type` argument omitted. -/
def testingStationaryTestCalls (lib : StatsLib) (price : List ℚ) :
    EffM (List (String × ℚ)) × EffM (List (String × ℚ)) :=
  (adf_test lib price, kpss_test_default lib price)

/-- First differencing of a series (pandas `.diff(1).dropna()`): consecutive
differences, dropping the leading missing value. -/
def diffOnce : List ℚ → List ℚ
  | [] => []
  | a :: t => List.zipWith (fun u v => u - v) t (a :: t)

/-- `d`-fold application of first differencing. -/
def diffIter : Nat → List ℚ → List ℚ
  | 0, x => x
  | d + 1, x => diffIter d (diffOnce x)

/-- The test argument of `pmdarima.arima.ndiffs` as used by
`testing_stationary` (lines 254-256): 'adf', 'kpss' or 'pp'. -/
inductive DTest
  | adf
  | kpss
  | pp
deriving DecidableEq, Repr

/-- A stationarity decision oracle for the differencing loop: given the test
method, the significance level and a series, decide whether the series
already looks stationary (no further differencing needed). -/
def DiffOracle : Type := DTest → ℚ → List ℚ → Bool

/-- Modelled from the spec: the iterative core of `pmdarima.arima.ndiffs`
(an external library; the source only calls it).  Starting at order 0, test
the series; if the stopping criterion is met stop, otherwise difference once
and retry, never performing more than `max_d` differences. -/
def ndiffsLoop (stat : List ℚ → Bool) : Nat → List ℚ → Nat
  | 0, _ => 0
  | maxD + 1, x => if stat x then 0 else ndiffsLoop stat maxD (diffOnce x) + 1

/-- Modelled from the spec: `pmdarima.arima.ndiffs(x, test=t, alpha, max_d)`
— the recommended number of first differences, computed by the iterative
loop with the chosen test's stopping criterion at level `alpha`. -/
def ndiffs (oracle : DiffOracle) (x : List ℚ) (test : DTest) (alpha : ℚ)
    (max_d : Nat) : Nat :=
  ndiffsLoop (oracle test alpha) max_d x

/-- The default significance level of `ndiffs` (pmdarima default
`alpha=0.05`). -/
def ndiffsDefaultAlpha : ℚ := 1 / 20

/-- The default cap on the number of differences of `ndiffs` (pmdarima
default `max_d=2`). -/
def ndiffsDefaultMaxD : Nat := 2

/-- An `ndiffs` call as issued by `testing_stationary` (lines 254-256): only
the series and the test method are passed, so the default significance level
and cap apply. -/
def ndiffsDefaultCall (oracle : DiffOracle) (x : List ℚ) (test : DTest) : Nat :=
  ndiffs oracle x test ndiffsDefaultAlpha ndiffsDefaultMaxD

/-- Specification-side description of the differencing recommendation (spec
§4.1, `recommendDifferencingOrder`): the first order `k < max_d` at which
the stopping criterion is met, or the cap `max_d` if it is never met before
the cap is reached. -/
def firstStationaryOrder (stat : List ℚ → Bool) (max_d : Nat) (x : List ℚ) : Nat :=
  (((List.range max_d).filter (fun k => stat (diffIter k x)))).headD max_d

/-- Running a stateless computation twice in a row. -/
def runTwice {α : Type} (f : Unit → α) : α × α := (f (), f ())

/-- The test summaries surfaced (printed) by a run of
`test_autocorrelation`: the print effects of its trace, in order. -/
def surfacedSummaries (r : EffM Figure) : List Effect :=
  r.1.filter (fun e =>
    match e with
    | Effect.printADF _ _ => true
    | Effect.printKPSS _ _ => true
    | _ => false)

/-- Whether an effect is one of the analyzer's own print/plot statements. -/
def analyzerOwnEffect : Effect → Bool
  | Effect.printADF _ _ => true
  | Effect.printKPSS _ _ => true
  | Effect.plotACF _ _ _ => true
  | Effect.plotPACF _ _ _ => true

/-- Modelled from the spec: a minimal deterministic instance of the external
statistical library, used only to evaluate the wrappers on concrete inputs.
It fails with `InsufficientDataError` on any series shorter than 4
observations (a stand-in for the library's minimum lag requirement) and
otherwise returns fixed representative outputs with the library's usual
critical-value labels. -/
def specLib : StatsLib where
  adfuller x _ :=
    if x.length < 4 then Except.error StatsError.insufficientData
    else
      Except.ok
        { statistic := -3, pvalue := 1 / 100, usedlag := 1, nobs := x.length - 2,
          critvalues := [("1%", -7 / 2), ("5%", -3), ("10%", -5 / 2)] }
  kpss x _ _ :=
    if x.length < 4 then Except.error StatsError.insufficientData
    else
      Except.ok
        { statistic := 4 / 5, pvalue := 1 / 100, lags := 2,
          critvalues := [("10%", 347 / 1000), ("5%", 463 / 1000),
            ("2.5%", 574 / 1000), ("1%", 739 / 1000)] }

/-- The field labels admitted by the claimed result-record shape (spec §3,
`StationarityTestResult`): the statistic, the p-value, the lags-used count
(under either wrapper's label for it) and the critical-value entries. -/
def claimedResultLabel (critLabels : List String) (lbl : String) : Bool :=
  lbl = "Test Statistic" || lbl = "p-value" || lbl = "# of Lags Used" ||
    lbl = "# of Lags" || critLabels.contains lbl

theorem ndiffsLoop_le (stat : List ℚ → Bool) :
    ∀ (m : Nat) (x : List ℚ), ndiffsLoop stat m x ≤ m := by
  intro m
  induction m with
  | zero => intro x; simp [ndiffsLoop]
  | succ k ih =>
      intro x
      simp only [ndiffsLoop]
      split
      · omega
      · have := ih (diffOnce x); omega

theorem filter_map_plusone (p : Nat → Bool) (l : List Nat) :
    (l.map Nat.succ).filter p = (l.filter (fun j => p (j + 1))).map Nat.succ := by
  induction l with
  | nil => rfl
  | cons a t ih =>
      by_cases h : p (a + 1)
      · simp [List.filter, h, ih, Nat.succ_eq_add_one]
      · simp [List.filter, h, ih, Nat.succ_eq_add_one]

theorem headD_map_plusone (l : List Nat) (d : Nat) :
    (l.map Nat.succ).headD (d + 1) = l.headD d + 1 := by
  cases l <;> rfl

theorem ndiffsLoop_eq_firstStationaryOrder (stat : List ℚ → Bool) :
    ∀ (m : Nat) (x : List ℚ), ndiffsLoop stat m x = firstStationaryOrder stat m x := by
  intro m
  induction m with
  | zero => intro x; rfl
  | succ k ih =>
      intro x
      simp only [ndiffsLoop, firstStationaryOrder, List.range_succ_eq_map]
      by_cases h : stat x
      · simp [List.filter, diffIter, h]
      · have hstep : (fun j => stat (diffIter j x)) ∘ Nat.succ =
            fun j => stat (diffIter j (diffOnce x)) := by
          funext j; rfl
        simp only [List.filter, diffIter, h, cond_false]
        rw [filter_map_plusone, headD_map_plusone]
        have hfun : (fun j => stat (diffIter (j + 1) x)) =
            fun j => stat (diffIter j (diffOnce x)) := by
          funext j; rfl
        rw [hfun, ih (diffOnce x)]
        rfl

/-- C1: `adf_test` performs the augmented Dickey-Fuller unit-root test with
automatic lag-length selection by AIC minimization: it invokes the library's
`adfuller` routine with `autolag="AIC"`, and the statistic, p-value and lag
count it surfaces are exactly that invocation's results; the routine's null
hypothesis is that the series has a unit root (is non-stationary). -/
theorem C1_adf_test_is_aic_unit_root_test (lib : StatsLib) (x : List ℚ)
    (r : AdfOutput) (h : lib.adfuller x AutoLag.AIC = Except.ok r) :
    Except.map (fun rs => (seriesGet rs "Test Statistic", seriesGet rs "p-value",
        seriesGet rs "# of Lags Used")) (adf_test lib x).2 =
      Except.ok (r.statistic, r.pvalue, (r.usedlag : ℚ)) ∧
    adfullerNullHypothesis = NullHyp.unitRoot := by
  constructor
  · simp only [adf_test, h]
    rfl
  · rfl

/-- Witness for C1 at a concrete library instance and series. -/
theorem C1_witness :
    Except.map (fun rs => (seriesGet rs "Test Statistic", seriesGet rs "p-value",
        seriesGet rs "# of Lags Used")) (adf_test specLib [1, 2, 3, 4, 5]).2 =
      Except.ok ((-3 : ℚ), (1 / 100 : ℚ), (1 : ℚ)) ∧
    adfullerNullHypothesis = NullHyp.unitRoot :=
  C1_adf_test_is_aic_unit_root_test specLib [1, 2, 3, 4, 5]
    { statistic := -3, pvalue := 1 / 100, usedlag := 1, nobs := 3,
      critvalues := [("1%", -7 / 2), ("5%", -3), ("10%", -5 / 2)] }
    (by rfl)

/-- C2: `kpss_test` performs the KPSS test whose null hypothesis is
stationarity around a constant for `h0_type = "c"` and around a trend for
`h0_type = "ct"`: it invokes the library's `kpss` routine with
`regression=h0_type` and `nlags="auto"` (automatic lag selection), and the
statistic, p-value and lag count it surfaces are exactly that invocation's
results. -/
theorem C2_kpss_test_is_stationarity_null_test (lib : StatsLib) (x : List ℚ)
    (h0_type : Regression) (r : KpssOutput)
    (h : lib.kpss x h0_type NLags.auto = Except.ok r) :
    Except.map (fun rs => (seriesGet rs "Test Statistic", seriesGet rs "p-value",
        seriesGet rs "# of Lags")) (kpss_test lib x h0_type).2 =
      Except.ok (r.statistic, r.pvalue, (r.lags : ℚ)) ∧
    kpssNullHypothesis Regression.c = NullHyp.stationaryAroundConstant ∧
    kpssNullHypothesis Regression.ct = NullHyp.stationaryAroundTrend := by
  refine ⟨?_, rfl, rfl⟩
  simp only [kpss_test, h]
  rfl

/-- Witness for C2 at a concrete library instance and series. -/
theorem C2_witness :
    Except.map (fun rs => (seriesGet rs "Test Statistic", seriesGet rs "p-value",
        seriesGet rs "# of Lags")) (kpss_test specLib [1, 2, 3, 4, 5] Regression.ct).2 =
      Except.ok ((4 / 5 : ℚ), (1 / 100 : ℚ), (2 : ℚ)) ∧
    kpssNullHypothesis Regression.c = NullHyp.stationaryAroundConstant ∧
    kpssNullHypothesis Regression.ct = NullHyp.stationaryAroundTrend :=
  C2_kpss_test_is_stationarity_null_test specLib [1, 2, 3, 4, 5] Regression.ct
    { statistic := 4 / 5, pvalue := 1 / 100, lags := 2,
      critvalues := [("10%", 347 / 1000), ("5%", 463 / 1000),
        ("2.5%", 574 / 1000), ("1%", 739 / 1000)] }
    (by rfl)

/-- C3: when the library's routines fail with `InsufficientDataError` on any
series shorter than its minimum length, both wrappers surface exactly that
error on such a series — no retry, no recovery, no effect, and no silently
returned value. -/
theorem C3_short_series_raises_insufficient_data (lib : StatsLib) (minLen : Nat)
    (hA : ∀ (y : List ℚ) (a : AutoLag), y.length < minLen →
      lib.adfuller y a = Except.error StatsError.insufficientData)
    (hK : ∀ (y : List ℚ) (reg : Regression) (n : NLags), y.length < minLen →
      lib.kpss y reg n = Except.error StatsError.insufficientData)
    (x : List ℚ) (hx : x.length < minLen) (h0_type : Regression) :
    adf_test lib x = ([], Except.error StatsError.insufficientData) ∧
    kpss_test lib x h0_type = ([], Except.error StatsError.insufficientData) := by
  constructor
  · simp only [adf_test, hA x AutoLag.AIC hx]
  · simp only [kpss_test, hK x h0_type NLags.auto hx]

/-- Witness for C3: the concrete library instance fails below 4 observations
and both wrappers surface the error on a length-1 series. -/
theorem C3_witness :
    adf_test specLib [1] = ([], Except.error StatsError.insufficientData) ∧
    kpss_test specLib [1] Regression.c = ([], Except.error StatsError.insufficientData) :=
  C3_short_series_raises_insufficient_data specLib 4
    (fun y a h => by simp only [specLib]; rw [if_pos h])
    (fun y reg n h => by simp only [specLib]; rw [if_pos h])
    [1] (by decide) Regression.c

/-- C7: calling either test twice on the same series yields identical
results in both runs — the wrappers are deterministic functions of their
input, with no state between calls. -/
theorem C7_tests_deterministic (lib : StatsLib) (x : List ℚ) (h0_type : Regression) :
    (runTwice (fun _ => adf_test lib x)).1 = (runTwice (fun _ => adf_test lib x)).2 ∧
    (runTwice (fun _ => kpss_test lib x h0_type)).1 =
      (runTwice (fun _ => kpss_test lib x h0_type)).2 :=
  ⟨rfl, rfl⟩

/-- C9: the `h0_type` parameter of `kpss_test` defaults to "c" (the
level-stationary null hypothesis), and `testing_stationary`'s KPSS
invocation, which omits the argument, is therefore the KPSS test with the
level-stationary null. -/
theorem C9_kpss_default_is_level_stationary (lib : StatsLib) (price : List ℚ) :
    kpssDefaultH0 = Regression.c ∧
    (testingStationaryTestCalls lib price).2 = kpss_test lib price Regression.c ∧
    kpssNullHypothesis kpssDefaultH0 = NullHyp.stationaryAroundConstant :=
  ⟨rfl, rfl, rfl⟩

/-- C4: every differencing-order recommendation issued by
`testing_stationary` (an `ndiffs` call with only the series and the test
method passed) is a non-negative integer equal to the first order at which
the chosen test's stopping criterion is met at the default 0.05 significance
level, never exceeds the default cap of 2 differences, and is the cap when
the criterion is never met before it; for any explicit cap, the
recommendation never exceeds that cap. -/
theorem C4_ndiffs_first_order_and_capped (oracle : DiffOracle) (price : List ℚ)
    (test : DTest) :
    ndiffsDefaultCall oracle price test =
      firstStationaryOrder (oracle test ndiffsDefaultAlpha) ndiffsDefaultMaxD price ∧
    ndiffsDefaultCall oracle price test ≤ ndiffsDefaultMaxD ∧
    ndiffsDefaultMaxD = 2 ∧ ndiffsDefaultAlpha = 1 / 20 ∧
    ∀ (alpha : ℚ) (max_d : Nat), ndiffs oracle price test alpha max_d ≤ max_d := by
  refine ⟨ndiffsLoop_eq_firstStationaryOrder _ _ _, ndiffsLoop_le _ _ _, rfl, rfl, ?_⟩
  intro alpha max_d
  exact ndiffsLoop_le _ _ _

/-- C5: `test_autocorrelation` performs no reconciliation between the two
tests: whatever `adf_test` and `kpss_test` return on the series — in
particular when they disagree — the surfaced summaries carry exactly the
standalone results of each test, unmodified, with neither influencing the
other. -/
theorem C5_no_reconciliation (lib : StatsLib) (x : List ℚ) (n_lags : Nat)
    (alpha : ℚ) (h0_type : Regression) (A K : List (String × ℚ))
    (hA : adf_test lib x = ([], Except.ok A))
    (hK : kpss_test lib x h0_type = ([], Except.ok K)) :
    test_autocorrelation lib x n_lags alpha h0_type =
      ([Effect.printADF (seriesGet A "Test Statistic") (seriesGet A "p-value"),
        Effect.printKPSS (seriesGet K "Test Statistic") (seriesGet K "p-value"),
        Effect.plotACF x n_lags alpha, Effect.plotPACF x n_lags alpha],
       Except.ok { series := x, lags := n_lags, alpha := alpha }) := by
  simp [test_autocorrelation, hA, hK]

/-- Witness for C5: a concrete series on which the two tests disagree (the
ADF p-value 0.01 rejects the unit root, the KPSS p-value 0.01 rejects
stationarity); both results are surfaced unmodified. -/
theorem C5_witness :
    test_autocorrelation specLib [1, 2, 3, 4, 5] 40 (1 / 20) Regression.c =
      ([Effect.printADF (-3) (1 / 100), Effect.printKPSS (4 / 5) (1 / 100),
        Effect.plotACF [1, 2, 3, 4, 5] 40 (1 / 20),
        Effect.plotPACF [1, 2, 3, 4, 5] 40 (1 / 20)],
       Except.ok { series := [1, 2, 3, 4, 5], lags := 40, alpha := 1 / 20 }) := by
  exact C5_no_reconciliation specLib [1, 2, 3, 4, 5] 40 (1 / 20) Regression.c
    [("Test Statistic", -3), ("p-value", 1 / 100), ("# of Lags Used", 1),
      ("# of Observations Used", 3), ("Critical Value (1%)", -7 / 2),
      ("Critical Value (5%)", -3), ("Critical Value (10%)", -5 / 2)]
    [("Test Statistic", 4 / 5), ("p-value", 1 / 100), ("# of Lags", 2),
      ("Critical Value (10%)", 347 / 1000), ("Critical Value (5%)", 463 / 1000),
      ("Critical Value (2.5%)", 574 / 1000), ("Critical Value (1%)", 739 / 1000)]
    (by rfl) (by rfl)

/-- C6 is false as stated: on a concrete series, `adf_test`'s result record
carries an extra field labelled "# of Observations Used", which is none of
the claimed fields (statistic, p-value, lags used, or a critical-value
entry). -/
theorem C6_counterexample :
    Except.map (List.map Prod.fst) (adf_test specLib [1, 2, 3, 4, 5]).2 =
      Except.ok ["Test Statistic", "p-value", "# of Lags Used",
        "# of Observations Used", "Critical Value (1%)", "Critical Value (5%)",
        "Critical Value (10%)"] ∧
    claimedResultLabel ["Critical Value (1%)", "Critical Value (5%)",
      "Critical Value (10%)"] "# of Observations Used" = false :=
  ⟨rfl, rfl⟩

/-- C6 amended: each wrapper returns, once per invocation, an immutable
labelled record holding the statistic, the p-value, the lags-used count and
one critical-value entry per critical value supplied by the test — and, for
the unit-root wrapper `adf_test` only, additionally the number of
observations used. -/
theorem C6_amended_result_fields (lib : StatsLib) (x : List ℚ)
    (h0_type : Regression) (rA : AdfOutput) (rK : KpssOutput)
    (hA : lib.adfuller x AutoLag.AIC = Except.ok rA)
    (hK : lib.kpss x h0_type NLags.auto = Except.ok rK) :
    Except.map (List.map Prod.fst) (adf_test lib x).2 =
      Except.ok (["Test Statistic", "p-value", "# of Lags Used",
        "# of Observations Used"] ++
        rA.critvalues.map (fun kv => "Critical Value (" ++ kv.1 ++ ")")) ∧
    Except.map (List.map Prod.fst) (kpss_test lib x h0_type).2 =
      Except.ok (["Test Statistic", "p-value", "# of Lags"] ++
        rK.critvalues.map (fun kv => "Critical Value (" ++ kv.1 ++ ")")) := by
  constructor
  · simp [adf_test, hA, Except.map, List.map_map, Function.comp]
  · simp [kpss_test, hK, Except.map, List.map_map, Function.comp]

/-- Witness for the amended C6 at a concrete library instance and series. -/
theorem C6_amended_witness :
    Except.map (List.map Prod.fst) (adf_test specLib [1, 2, 3, 4, 5]).2 =
      Except.ok (["Test Statistic", "p-value", "# of Lags Used",
        "# of Observations Used"] ++
        [("1%", (-7 / 2 : ℚ)), ("5%", -3), ("10%", -5 / 2)].map
          (fun kv => "Critical Value (" ++ kv.1 ++ ")")) ∧
    Except.map (List.map Prod.fst) (kpss_test specLib [1, 2, 3, 4, 5] Regression.c).2 =
      Except.ok (["Test Statistic", "p-value", "# of Lags"] ++
        [("10%", (347 / 1000 : ℚ)), ("5%", 463 / 1000), ("2.5%", 574 / 1000),
          ("1%", 739 / 1000)].map
          (fun kv => "Critical Value (" ++ kv.1 ++ ")")) := by
  exact C6_amended_result_fields specLib [1, 2, 3, 4, 5] Regression.c
    { statistic := -3, pvalue := 1 / 100, usedlag := 1, nobs := 3,
      critvalues := [("1%", -7 / 2), ("5%", -3), ("10%", -5 / 2)] }
    { statistic := 4 / 5, pvalue := 1 / 100, lags := 2,
      critvalues := [("10%", 347 / 1000), ("5%", 463 / 1000),
        ("2.5%", 574 / 1000), ("1%", 739 / 1000)] }
    (by rfl) (by rfl)

/-- C8 is false as stated: on a concrete series, `test_autocorrelation`
itself prints both test summaries and renders both autocorrelation plots —
its effect trace is non-empty, so rendering and printing are not left to the
caller. -/
theorem C8_counterexample :
    (test_autocorrelation specLib [1, 2, 3, 4, 5] 40 (1 / 20) Regression.c).1 =
      [Effect.printADF (-3) (1 / 100), Effect.printKPSS (4 / 5) (1 / 100),
       Effect.plotACF [1, 2, 3, 4, 5] 40 (1 / 20),
       Effect.plotPACF [1, 2, 3, 4, 5] 40 (1 / 20)] ∧
    (test_autocorrelation specLib [1, 2, 3, 4, 5] 40 (1 / 20) Regression.c).1 ≠ [] := by
  refine ⟨rfl, ?_⟩
  decide

/-- C8 amended: `adf_test` and `kpss_test` have no side effects beyond
computation (their effect traces are empty and the input series is left
unchanged), while `test_autocorrelation` performs its own printing and
rendering: every effect in its trace is one of its own two print statements
or two plot statements. -/
theorem C8_amended_analyzer_effects (lib : StatsLib) (x : List ℚ)
    (n_lags : Nat) (alpha : ℚ) (h0_type : Regression) :
    (adf_test lib x).1 = [] ∧ (kpss_test lib x h0_type).1 = [] ∧
    (test_autocorrelation lib x n_lags alpha h0_type).1.all analyzerOwnEffect = true := by
  refine ⟨rfl, rfl, ?_⟩
  cases hA : lib.adfuller x AutoLag.AIC with
  | error e => simp [test_autocorrelation, adf_test, hA]
  | ok r =>
      cases hK : lib.kpss x h0_type NLags.auto with
      | error e => simp [test_autocorrelation, adf_test, kpss_test, hA, hK]
      | ok s =>
          simp [test_autocorrelation, adf_test, kpss_test, hA, hK, analyzerOwnEffect]

/-- C10: the `n_lags` and `alpha` parameters of `test_autocorrelation`
influence only the ACF/PACF plotting: for any two choices of them, the ADF
and KPSS statistics and p-values it computes and reports are identical. -/
theorem C10_plot_params_do_not_affect_tests (lib : StatsLib) (x : List ℚ)
    (h0_type : Regression) (n1 n2 : Nat) (a1 a2 : ℚ) :
    surfacedSummaries (test_autocorrelation lib x n1 a1 h0_type) =
      surfacedSummaries (test_autocorrelation lib x n2 a2 h0_type) := by
  cases hA : lib.adfuller x AutoLag.AIC with
  | error e => simp [test_autocorrelation, adf_test, surfacedSummaries, hA]
  | ok r =>
      cases hK : lib.kpss x h0_type NLags.auto with
      | error e =>
          simp [test_autocorrelation, adf_test, kpss_test, surfacedSummaries, hA, hK]
      | ok s =>
          simp [test_autocorrelation, adf_test, kpss_test, surfacedSummaries, hA, hK,
            List.filter]
